import Mathlib

/-!
Shallow embedding of the builder/validation core of the `todoist-core`
crate (types in `src/todoist-core/src/types/`): entity records
(Item, Project, Section, Label), their staging builders, and the
`build`/`to_builder` operations, translated function by function from
the Rust source.  Rust `Result<T, &'static str>` becomes
`Except String T`; Rust `panic!` in a setter becomes an `Except.error`
carrying the panic message; `u64`/`u32` become `Nat`.
-/

namespace Todoist

/-- Priority enum (`priority.rs`): P1 = most urgent. -/
inductive Priority where
  | P1
  | P2
  | P3
  | P4
deriving DecidableEq, Repr

/-- Rust `impl Default for Priority` returns `P4`. -/
def Priority.default : Priority := .P4

/-- Colors enum (`colors.rs`): 20 named colors. -/
inductive Colors where
  | BerryRed
  | Red
  | Orange
  | Yellow
  | OliveGreen
  | LimeGreen
  | Green
  | MintGreen
  | Teal
  | SkyBlue
  | LightBlue
  | Blue
  | Grape
  | Violet
  | Lavender
  | Magenta
  | Salmon
  | Charcoal
  | Grey
  | Taupe
deriving DecidableEq, Repr

/-- Rust `impl Default for Colors` returns `Grey`. -/
def Colors.default : Colors := .Grey

/-- Rust `DueDate` record (`dates.rs`). -/
structure DueDate where
  date : String
  timezone : String
  string : String
  lang : String
  is_recurring : Bool
  no_date : Bool
deriving DecidableEq, Repr

/-- Rust `DueDateBuilder` (`dates.rs`), all fields at their `Default` values. -/
structure DueDateBuilder where
  date : Option String := none
  string : Option String := none
  lang : Option String := none
  is_recurring : Bool := false
  no_date : Bool := false
deriving DecidableEq, Repr

/-- Rust `DueDateBuilder::default()`. -/
def DueDateBuilder.mk_default : DueDateBuilder := {}

namespace SupportedLang

/-- Rust `SupportedLang::supported_lang`: the 14 supported locale codes. -/
def supported_lang : List String :=
  ["en", "da", "pl", "zh", "ko", "de", "pt", "ja", "it", "fr", "sv", "ru", "es", "nl"]

/-- Rust `SupportedLang::check_lang`: Ok iff the code is supported. -/
def check_lang (value : String) : Except Unit Unit :=
  if ¬ supported_lang.contains value then .error () else .ok ()

/-- Rust `SupportedLang::default()`: the default locale string. -/
def lang_default : String := "en"

end SupportedLang

namespace DueDateBuilder

/-- Rust `DueDateBuilder::from_string`: `panic!("Not implemented")`, modelled as an
unconditional abort value. -/
def from_string (_self : DueDateBuilder) (_date_string : String) :
    Except String DueDateBuilder :=
  .error "Not implemented"

/-- Rust `DueDateBuilder::no_date`: ignores `value`; sets the flag, clears date and
string, and forces `is_recurring` off (with a diagnostic when it was on). -/
def no_date_set (self : DueDateBuilder) (_value : Bool) : DueDateBuilder :=
  let new := { self with no_date := true, date := none, string := none }
  if new.is_recurring then { new with is_recurring := false } else new

/-- Rust `DueDateBuilder::is_recurring`: no-op when `no_date` is set. -/
def is_recurring_set (self : DueDateBuilder) (value : Bool) : DueDateBuilder :=
  if self.no_date then self else { self with is_recurring := value }

/-- Rust `DueDateBuilder::lang`: stores supported codes, substitutes the default
locale for unsupported ones (never fails). -/
def lang_set (self : DueDateBuilder) (value : String) : DueDateBuilder :=
  match SupportedLang.check_lang value with
  | .ok _ => { self with lang := some value }
  | .error _ => { self with lang := some SupportedLang.lang_default }

/-- Rust `DueDateBuilder::build`. -/
def build (self : DueDateBuilder) : Except String DueDate := do
  let date ← match self.date with
    | some value => pure value
    | none =>
      if self.no_date then pure "No date"
      else Except.error "No date given but no_date field is unset"
  let str ← match self.string with
    | some value => pure value
    | none =>
      if self.no_date then pure "No date"
      else Except.error "No date given but no_date field is unset"
  pure { date := date
         timezone := "null"
         string := str
         lang := match self.lang with
           | some value => value
           | none => "en"
         is_recurring := self.is_recurring
         no_date := self.no_date }

end DueDateBuilder

/-- Rust `impl Default for DueDate`: `builder().no_date(true).build().unwrap()`.
The builder call provably succeeds, so the `unwrap` is modelled by matching
on the (ok) result. -/
def DueDate.mk_default : DueDate :=
  match (DueDateBuilder.mk_default.no_date_set true).build with
  | .ok value => value
  | .error _ =>
      { date := "No date", timezone := "null", string := "No date",
        lang := "en", is_recurring := false, no_date := true }

/-- Rust `Item` record (`items.rs`). -/
structure Item where
  id : Option Nat
  user_id : Nat
  project_id : Nat
  content : String
  description : Option String
  due : DueDate
  priority : Priority
  parent_id : Option Nat
  child_order : Nat
  section_id : Option Nat
  day_order : Nat
  collapsed : Bool
  labels : List Nat
  checked : Bool
  is_deleted : Bool
  date_completed : Option String
  date_added : String
deriving DecidableEq, Repr

/-- Rust `ItemBuilder` (`items.rs`), all fields at their `Default` values. -/
structure ItemBuilder where
  id : Option Nat := none
  user_id : Option Nat := none
  project_id : Option Nat := none
  content : Option String := none
  description : Option String := none
  due : Option DueDate := none
  priority : Option Priority := none
  parent_id : Option Nat := none
  child_order : Option Nat := none
  section_id : Option Nat := none
  day_order : Option Nat := none
  collapsed : Bool := false
  labels : Option (List Nat) := none
  checked : Bool := false
  is_deleted : Bool := false
  date_completed : Option String := none
  date_added : Option String := none
deriving DecidableEq, Repr

/-- Rust `ItemBuilder::default()`. -/
def ItemBuilder.mk_default : ItemBuilder := {}

/-- Rust `Item::to_builder`: fails when the record has no ID, otherwise copies
every field, mapping a zero `user_id`/`project_id` back to `None`. -/
def Item.to_builder (self : Item) : Except String ItemBuilder :=
  match self.id with
  | none => .error "Builder from Item with no ID not allowed."
  | some value =>
    .ok { id := some value
          user_id := match self.user_id with
            | 0 => none
            | value => some value
          project_id := match self.project_id with
            | 0 => none
            | value => some value
          content := some self.content
          description := self.description
          due := some self.due
          priority := some self.priority
          parent_id := self.parent_id
          child_order := some self.child_order
          section_id := self.section_id
          day_order := some self.day_order
          collapsed := self.collapsed
          labels := some self.labels
          checked := self.checked
          is_deleted := self.is_deleted
          date_completed := self.date_completed
          date_added := some self.date_added }

namespace ItemBuilder

/-- Rust `ItemBuilder::user_id` setter. -/
def user_id_set (self : ItemBuilder) (value : Nat) : ItemBuilder :=
  { self with user_id := some value }

/-- Rust `ItemBuilder::project_id` setter. -/
def project_id_set (self : ItemBuilder) (value : Nat) : ItemBuilder :=
  { self with project_id := some value }

/-- Rust `ItemBuilder::content` setter. -/
def content_set (self : ItemBuilder) (value : String) : ItemBuilder :=
  { self with content := some value }

/-- Rust `ItemBuilder::checked` setter. -/
def checked_set (self : ItemBuilder) (value : Bool) : ItemBuilder :=
  { self with checked := value }

/-- Rust `ItemBuilder::date_completed` setter. -/
def date_completed_set (self : ItemBuilder) (value : String) : ItemBuilder :=
  { self with date_completed := some value }

/-- Rust `ItemBuilder::date_added` setter. -/
def date_added_set (self : ItemBuilder) (value : String) : ItemBuilder :=
  { self with date_added := some value }

/-- Rust `ItemBuilder::label_add`: push onto the label vector, materializing an
empty one first when none exists. -/
def label_add (self : ItemBuilder) (value : Nat) : ItemBuilder :=
  let labels : List Nat := match self.labels with
    | some value => value
    | none => []
  { self with labels := some (labels ++ [value]) }

/-- Rust `Vec::swap_remove(pos)`: remove index `pos` by moving the last element
into its place. -/
def listSwapRemove (l : List Nat) (pos : Nat) : List Nat :=
  (l.set pos (l.getLastD 0)).dropLast

/-- Rust `ItemBuilder::label_remove`: remove by value via `position` +
`swap_remove`; an emptied vector reverts the field to `None`. -/
def label_remove (self : ItemBuilder) (value : Nat) : ItemBuilder :=
  match self.labels with
  | none => self
  | some start =>
    let labels :=
      if start.contains value then
        listSwapRemove start (start.findIdx (fun x => x == value))
      else start
    if labels.isEmpty then { self with labels := none }
    else { self with labels := some labels }

/-- Rust `ItemBuilder::build`: validation and finalization, with the early
returns in the Rust struct-literal field order. -/
def build (self : ItemBuilder) : Except String Item :=
  match self.user_id with
  | none => .error "Task has no user ID."
  | some user_id =>
    match self.project_id with
    | none => .error "Task has no project ID."
    | some project_id =>
      match self.content with
      | none => .error "Task has no content."
      | some content =>
        match self.date_completed, self.checked with
        | some _, false => .error "Uncompleted task can't have a completion date"
        | none, true => .error "Completed task must have a completion date."
        | date_completed, checked =>
          match self.date_added with
          | none => .error "Task has no creation date."
          | some date_added =>
            .ok { id := self.id
                  user_id := user_id
                  project_id := project_id
                  content := content
                  description := self.description
                  due := match self.due with
                    | some value => value
                    | none => DueDate.mk_default
                  priority := match self.priority with
                    | some value => value
                    | none => Priority.default
                  parent_id := self.parent_id
                  child_order := self.child_order.getD 0
                  section_id := self.section_id
                  day_order := self.day_order.getD 0
                  collapsed := self.collapsed
                  labels := match self.labels with
                    | some value => value
                    | none => []
                  checked := checked
                  is_deleted := self.is_deleted
                  date_completed := date_completed
                  date_added := date_added }

end ItemBuilder

/-- Rust `Project` record (`projects.rs`). -/
structure Project where
  id : Option Nat
  name : String
  color : Colors
  parent_id : Option Nat
  child_order : Nat
  collapsed : Bool
  shared : Bool
  sync_id : Option Nat
  is_deleted : Bool
  is_archived : Bool
  is_favorite : Bool
  inbox_project : Bool
deriving DecidableEq, Repr

/-- Rust `ProjectBuilder` (`projects.rs`), all fields at their `Default` values. -/
structure ProjectBuilder where
  id : Option Nat := none
  name : Option String := none
  color : Option Colors := none
  parent_id : Option Nat := none
  child_order : Nat := 0
  collapsed : Bool := false
  shared : Bool := false
  sync_id : Option Nat := none
  is_deleted : Bool := false
  is_archived : Bool := false
  is_favorite : Bool := false
  inbox_project : Bool := false
deriving DecidableEq, Repr

/-- Rust `ProjectBuilder::default()`. -/
def ProjectBuilder.mk_default : ProjectBuilder := {}

/-- Rust `Project::to_builder`: fails when the record has no ID, otherwise copies
every field. -/
def Project.to_builder (self : Project) : Except String ProjectBuilder :=
  match self.id with
  | some value =>
    .ok { id := some value
          name := some self.name
          color := some self.color
          parent_id := self.parent_id
          child_order := self.child_order
          collapsed := self.collapsed
          shared := self.shared
          sync_id := self.sync_id
          is_deleted := self.is_deleted
          is_archived := self.is_archived
          is_favorite := self.is_favorite
          inbox_project := self.inbox_project }
  | none => .error "Builder from project with no ID not allowed."

namespace ProjectBuilder

/-- Rust `ProjectBuilder::name` setter. -/
def name_set (self : ProjectBuilder) (value : String) : ProjectBuilder :=
  { self with name := some value }

/-- Rust `ProjectBuilder::shared`: `panic!("Shared projects not supported.")`,
modelled as an unconditional abort value. -/
def shared_set (_self : ProjectBuilder) (_value : Bool) :
    Except String ProjectBuilder :=
  .error "Shared projects not supported."

/-- Rust `ProjectBuilder::sync_id`: `panic!("Shared projects not supported.")`,
modelled as an unconditional abort value. -/
def sync_id_set (_self : ProjectBuilder) (_value : Nat) :
    Except String ProjectBuilder :=
  .error "Shared projects not supported."

/-- Rust `ProjectBuilder::inbox_project`: renames the project to "Inbox" when the
current name differs (with a diagnostic) or is unset (silently), then stores
the flag. -/
def inbox_project_set (self : ProjectBuilder) (value : Bool) : ProjectBuilder :=
  let new := match self.name with
    | some current =>
      if current ≠ "Inbox" then { self with name := some "Inbox" } else self
    | none => { self with name := some "Inbox" }
  { new with inbox_project := value }

/-- Rust `ProjectBuilder::build`. -/
def build (self : ProjectBuilder) : Except String Project :=
  match self.name with
  | none => .error "Project has no name."
  | some name =>
    if self.inbox_project ∧ name ≠ "Inbox" then
      .error "Project is not named 'Inbox' but is marked as inbox project"
    else
      .ok { id := self.id
            name := name
            color := match self.color with
              | some value => value
              | none => Colors.default
            parent_id := self.parent_id
            child_order := self.child_order
            collapsed := self.collapsed
            shared := self.shared
            sync_id := self.sync_id
            is_deleted := self.is_deleted
            is_archived := self.is_archived
            is_favorite := self.is_favorite
            inbox_project := self.inbox_project }

end ProjectBuilder

/-- Rust `Section` record (`sections.rs`). -/
structure Section where
  id : Option Nat
  name : String
  project_id : Nat
  section_order : Nat
  collapsed : Bool
  is_deleted : Bool
  is_archived : Bool
  date_archived : Option String
  date_added : String
deriving DecidableEq, Repr

/-- Rust `SectionBuilder` (`sections.rs`), all fields at their `Default` values. -/
structure SectionBuilder where
  id : Option Nat := none
  name : Option String := none
  project_id : Option Nat := none
  section_order : Nat := 0
  collapsed : Bool := false
  is_deleted : Bool := false
  is_archived : Bool := false
  date_archived : Option String := none
  date_added : Option String := none
deriving DecidableEq, Repr

/-- Rust `SectionBuilder::default()`. -/
def SectionBuilder.mk_default : SectionBuilder := {}

/-- Rust `Section::to_builder`: fails when the record has no ID, otherwise copies
every field. -/
def Section.to_builder (self : Section) : Except String SectionBuilder :=
  match self.id with
  | none => .error "Builder from section with no ID not allowed."
  | some value =>
    .ok { id := some value
          name := some self.name
          project_id := some self.project_id
          section_order := self.section_order
          collapsed := self.collapsed
          is_deleted := self.is_deleted
          is_archived := self.is_archived
          date_archived := self.date_archived
          date_added := some self.date_added }

namespace SectionBuilder

/-- Rust `SectionBuilder::name` setter. -/
def name_set (self : SectionBuilder) (value : String) : SectionBuilder :=
  { self with name := some value }

/-- Rust `SectionBuilder::project_id` setter. -/
def project_id_set (self : SectionBuilder) (value : Nat) : SectionBuilder :=
  { self with project_id := some value }

/-- Rust `SectionBuilder::date_added` setter. -/
def date_added_set (self : SectionBuilder) (value : String) : SectionBuilder :=
  { self with date_added := some value }

/-- Rust `SectionBuilder::is_archived`: stores the flag (diagnostic when there is
no archive date); clearing the flag also clears the archive date. -/
def is_archived_set (self : SectionBuilder) (value : Bool) : SectionBuilder :=
  let new := { self with is_archived := value }
  if ¬ new.is_archived then { new with date_archived := none } else new

/-- Rust `SectionBuilder::date_archived`: forces `is_archived := true` when it was
off (with a diagnostic), then stores the date. -/
def date_archived_set (self : SectionBuilder) (value : String) : SectionBuilder :=
  let new := if ¬ self.is_archived then { self with is_archived := true } else self
  { new with date_archived := some value }

/-- Rust `SectionBuilder::build`: validation with the early returns in the Rust
struct-literal field order. -/
def build (self : SectionBuilder) : Except String Section :=
  match self.name with
  | none => .error "Section does not have a name."
  | some name =>
    match self.project_id with
    | none => .error "Section does not have a project ID."
    | some project_id =>
      if self.is_archived ∧ self.date_archived = none then
        .error "Section marked as archived with no date."
      else if self.date_archived.isSome ∧ ¬ self.is_archived then
        .error "Section has archive date but not marked as archived."
      else
        match self.date_added with
        | none => .error "Section does not have an added date."
        | some date_added =>
          .ok { id := self.id
                name := name
                project_id := project_id
                section_order := self.section_order
                collapsed := self.collapsed
                is_deleted := self.is_deleted
                is_archived := self.is_archived
                date_archived := self.date_archived
                date_added := date_added }

end SectionBuilder

/-- Rust `Label` record (`labels.rs`). -/
structure Label where
  id : Option Nat
  name : String
  color : Colors
  item_order : Nat
  is_deleted : Bool
  is_favorite : Bool
deriving DecidableEq, Repr

/-- Rust `LabelBuilder` (`labels.rs`), all fields at their `Default` values. -/
structure LabelBuilder where
  id : Option Nat := none
  name : Option String := none
  color : Option Colors := none
  item_order : Nat := 0
  is_deleted : Bool := false
  is_favorite : Bool := false
deriving DecidableEq, Repr

/-- Rust `Label::to_builder`: fails when the record has no ID, otherwise copies
every field. -/
def Label.to_builder (self : Label) : Except String LabelBuilder :=
  match self.id with
  | some value =>
    .ok { id := some value
          name := some self.name
          color := some self.color
          item_order := self.item_order
          is_deleted := self.is_deleted
          is_favorite := self.is_favorite }
  | none => .error "Builder from label with no ID not allowed"

/-- Rust `LabelBuilder::build`. -/
def LabelBuilder.build (self : LabelBuilder) : Except String Label :=
  match self.name with
  | none => .error "Label must have a name."
  | some name =>
    .ok { id := self.id
          name := name
          color := match self.color with
            | some value => value
            | none => Colors.default
          item_order := self.item_order
          is_deleted := self.is_deleted
          is_favorite := self.is_favorite }

/-- Concrete Item record with an ID present but a zero owner id, mirroring
the record shape used in the repository's `items.rs` tests. -/
def zeroUserItem : Item :=
  { id := some 1, user_id := 0, project_id := 1, content := "Lorem ipsum",
    description := none, due := DueDate.mk_default,
    priority := Priority.default, parent_id := none, child_order := 0,
    section_id := none, day_order := 0, collapsed := false, labels := [],
    checked := false, is_deleted := false, date_completed := none,
    date_added := "1999-01-01" }

/-- C4: on any DueDate builder state (hence after any sequence of prior
recurring/date-setting calls), calling `no_date(true)` and then `build`
always succeeds and yields a DueDate with date = "No date",
string = "No date", `is_recurring = false` and `no_date = true`. -/
theorem claim_C4_no_date_then_commit (b : DueDateBuilder) :
    ∃ d : DueDate, (b.no_date_set true).build = .ok d ∧
      d.date = "No date" ∧ d.string = "No date" ∧
      d.is_recurring = false ∧ d.no_date = true := by
  refine ⟨{ date := "No date", timezone := "null", string := "No date",
            lang := match b.lang with | some value => value | none => "en",
            is_recurring := false, no_date := true }, ?_, rfl, rfl, rfl, rfl⟩
  cases hr : b.is_recurring <;>
    simp [DueDateBuilder.no_date_set, DueDateBuilder.build, hr, pure, Except.pure, bind, Except.bind]

/-- C9: the DueDate builder's `no_date` setter ignores its boolean argument:
for every builder state, `no_date(v)` equals `no_date(true)`, and the result
always has the no-date flag on, the staged date and string cleared, and the
recurring flag off. -/
theorem claim_C9_no_date_ignores_argument (b : DueDateBuilder) (v : Bool) :
    b.no_date_set v = b.no_date_set true ∧
    (b.no_date_set v).no_date = true ∧
    (b.no_date_set v).date = none ∧
    (b.no_date_set v).string = none ∧
    (b.no_date_set v).is_recurring = false := by
  cases hr : b.is_recurring <;>
    simp [DueDateBuilder.no_date_set, hr]

/-- C8: for every input, the Project builder's `shared` and `sync_id` setters
and the DueDate builder's natural-language date parser unconditionally abort
(they never return a builder, so no committed-valid state is reachable
through them). -/
theorem claim_C8_unsupported_setters_abort (pb : ProjectBuilder)
    (db : DueDateBuilder) (v : Bool) (n : Nat) (s : String) :
    pb.shared_set v = .error "Shared projects not supported." ∧
    pb.sync_id_set n = .error "Shared projects not supported." ∧
    db.from_string s = .error "Not implemented" ∧
    (∀ pb' : ProjectBuilder, pb.shared_set v ≠ .ok pb') ∧
    (∀ pb' : ProjectBuilder, pb.sync_id_set n ≠ .ok pb') ∧
    (∀ db' : DueDateBuilder, db.from_string s ≠ .ok db') := by
  refine ⟨rfl, rfl, rfl, ?_, ?_, ?_⟩ <;> intro x h <;>
    simp [ProjectBuilder.shared_set, ProjectBuilder.sync_id_set,
      DueDateBuilder.from_string] at h

/-- C7: for each of the 14 supported locale codes, setting that locale and
committing with `no_date = true` yields exactly that locale; for any code
outside the supported set the committed locale is "en"; and "en" is also the
committed locale when no locale was ever set. -/
theorem claim_C7_locale_handling :
    (∀ code ∈ SupportedLang.supported_lang,
      ((DueDateBuilder.mk_default.no_date_set true).lang_set code).build =
        .ok { date := "No date", timezone := "null", string := "No date",
              lang := code, is_recurring := false, no_date := true }) ∧
    (∀ code : String, code ∉ SupportedLang.supported_lang →
      ((DueDateBuilder.mk_default.no_date_set true).lang_set code).build =
        .ok { date := "No date", timezone := "null", string := "No date",
              lang := "en", is_recurring := false, no_date := true }) ∧
    ((DueDateBuilder.mk_default.no_date_set true).build =
      .ok { date := "No date", timezone := "null", string := "No date",
            lang := "en", is_recurring := false, no_date := true }) := by
  refine ⟨?_, ?_, rfl⟩
  · intro code hmem
    fin_cases hmem <;> rfl
  · intro code hmem
    simp [DueDateBuilder.lang_set, SupportedLang.check_lang, hmem,
      DueDateBuilder.no_date_set, DueDateBuilder.build,
      SupportedLang.lang_default, DueDateBuilder.mk_default, pure, Except.pure, bind, Except.bind]

/-- C2: `ItemBuilder::build` fails exactly when a required field is missing
or the checked/completion-date biconditional is violated; the message is the
one for the first violated condition, checked in the order user ID,
project ID, content, the checked/completion-date pair, creation date; on
success an unset due date defaults to the no-date DueDate and an unset
priority defaults to P4. -/
theorem claim_C2_item_commit_validation (b : ItemBuilder) :
    ((b.build.isOk = false) ↔
      (b.user_id = none ∨ b.project_id = none ∨ b.content = none ∨
        b.date_added = none ∨ b.checked ≠ b.date_completed.isSome)) ∧
    (b.user_id = none → b.build = .error "Task has no user ID.") ∧
    (b.user_id ≠ none → b.project_id = none →
      b.build = .error "Task has no project ID.") ∧
    (b.user_id ≠ none → b.project_id ≠ none → b.content = none →
      b.build = .error "Task has no content.") ∧
    (b.user_id ≠ none → b.project_id ≠ none → b.content ≠ none →
      b.checked = true → b.date_completed = none →
      b.build = .error "Completed task must have a completion date.") ∧
    (b.user_id ≠ none → b.project_id ≠ none → b.content ≠ none →
      b.checked = false → b.date_completed ≠ none →
      b.build = .error "Uncompleted task can't have a completion date") ∧
    (b.user_id ≠ none → b.project_id ≠ none → b.content ≠ none →
      b.checked = b.date_completed.isSome → b.date_added = none →
      b.build = .error "Task has no creation date.") ∧
    (∀ item : Item, b.build = .ok item →
      (b.due = none → item.due = DueDate.mk_default) ∧
      (b.priority = none → item.priority = Priority.default)) := by
  obtain ⟨id, uid, pid, content, desc, due, prio, par, co, sec, day, col,
    labels, checked, del, dc, da⟩ := b
  cases uid <;> cases pid <;> cases content <;> cases dc <;> cases checked <;>
    cases da <;> cases due <;> cases prio <;>
    simp [ItemBuilder.build, Except.isOk, Except.toBool]

/-- C2 witness: `claim_C2_item_commit_validation` applied at the empty
builder (first missing field is the user ID) and at a builder violating only
the completed/completion-date rule. -/
theorem claim_C2_item_commit_validation_witness :
    ItemBuilder.mk_default.build = .error "Task has no user ID." ∧
    ((((ItemBuilder.mk_default.user_id_set 1).project_id_set 1).content_set
        "Lorem ipsum").checked_set true).build =
      .error "Completed task must have a completion date." :=
  ⟨(claim_C2_item_commit_validation ItemBuilder.mk_default).2.1 rfl,
   (claim_C2_item_commit_validation _).2.2.2.2.1 (by decide) (by decide)
     (by decide) rfl rfl⟩

/-- C6: on a fresh Task builder, adding label ids 1..5 and removing 5 leaves
`some [1, 2, 3, 4]`; removing the remaining ids returns the labels field to
the absent state `none`, not an empty-but-present list. -/
theorem claim_C6_label_add_remove_round_trip :
    (((((((ItemBuilder.mk_default.label_add 1).label_add 2).label_add
        3).label_add 4).label_add 5).label_remove 5).labels =
      some [1, 2, 3, 4]) ∧
    ((((((((((ItemBuilder.mk_default.label_add 1).label_add 2).label_add
        3).label_add 4).label_add 5).label_remove 5).label_remove
        1).label_remove 2).label_remove 3).label_remove 4).labels = none := by
  constructor <;> rfl

/-- C10: label removal swaps the last element into the removed position: on
any builder whose labels are `[a, x, c]` with distinct ids, removing `a`
yields `[c, x]`, not `[x, c]`. -/
theorem claim_C10_label_remove_swaps_last (b : ItemBuilder) (a x c : Nat)
    (hax : a ≠ x) (hac : a ≠ c) (hxc : x ≠ c)
    (h : b.labels = some [a, x, c]) :
    (b.label_remove a).labels = some [c, x] := by
  simp [ItemBuilder.label_remove, h, ItemBuilder.listSwapRemove,
    List.findIdx_cons]

/-- C10 witness: `claim_C10_label_remove_swaps_last` at the concrete labels
`[10, 20, 30]`, removing 10. -/
theorem claim_C10_label_remove_swaps_last_witness :
    (({ labels := some [10, 20, 30] } : ItemBuilder).label_remove 10).labels =
      some [30, 20] :=
  claim_C10_label_remove_swaps_last _ 10 20 30 (by decide) (by decide)
    (by decide) rfl

/-- C5: the Section builder's `is_archived(false)` clears any archive date;
setting an archive date forces `is_archived = true`; commit re-checks both
directions (failing with "Section marked as archived with no date." when the
flag is on with no date, and failing when a date is present with the flag
off, with its own message once the earlier name/project checks pass); and
every committed Section satisfies `is_archived` iff its archive date is
present. -/
theorem claim_C5_section_archive_invariant (b : SectionBuilder) (s : String) :
    ((b.is_archived_set false).date_archived = none) ∧
    ((b.date_archived_set s).is_archived = true) ∧
    (b.is_archived = true → b.date_archived = none → b.build.isOk = false) ∧
    (b.name ≠ none → b.project_id ≠ none → b.is_archived = true →
      b.date_archived = none →
      b.build = .error "Section marked as archived with no date.") ∧
    (b.is_archived = false → b.date_archived ≠ none → b.build.isOk = false) ∧
    (b.name ≠ none → b.project_id ≠ none → b.is_archived = false →
      b.date_archived ≠ none →
      b.build = .error "Section has archive date but not marked as archived.") ∧
    (∀ sec : Section, b.build = .ok sec →
      (sec.is_archived = true ↔ sec.date_archived ≠ none)) := by
  obtain ⟨id, name, pid, so, col, del, arch, darch, da⟩ := b
  cases name <;> cases pid <;> cases arch <;> cases darch <;> cases da <;>
    simp [SectionBuilder.is_archived_set, SectionBuilder.date_archived_set,
      SectionBuilder.build, Except.isOk, Except.toBool]

/-- C5 witness: `claim_C5_section_archive_invariant` applied at the concrete
builder with name "Foo", project ID 1, creation date "1999-01-01" and
`is_archived = true`, which fails to commit with the archived-with-no-date
message; the setter parts are applied at the same builder with date
"2000-01-01". -/
theorem claim_C5_section_archive_invariant_witness :
    ((((SectionBuilder.mk_default.name_set "Foo").project_id_set
        1).date_added_set "1999-01-01").is_archived_set true).build =
      .error "Section marked as archived with no date." ∧
    (((((SectionBuilder.mk_default.name_set "Foo").project_id_set
        1).date_added_set "1999-01-01").is_archived_set
        true).date_archived_set "2000-01-01").is_archived = true :=
  ⟨(claim_C5_section_archive_invariant _ "2000-01-01").2.2.2.1 (by decide)
      (by decide) rfl rfl,
   (claim_C5_section_archive_invariant _ "2000-01-01").2.1⟩

/-- C3 counterexample: the claim asserts that calling `inbox_project(true)`
after `name("Not inbox")` makes commit fail; in the code this order renames
the project to "Inbox" and commit succeeds (the repository's own
`inbox_project_test` asserts this success). -/
theorem claim_C3_counterexample :
    ((ProjectBuilder.mk_default.name_set "Not inbox").inbox_project_set
        true).build =
      .ok { id := none, name := "Inbox", color := Colors.default,
            parent_id := none, child_order := 0, collapsed := false,
            shared := false, sync_id := none, is_deleted := false,
            is_archived := false, is_favorite := false,
            inbox_project := true } := by
  rfl

/-- C3 amended: `inbox_project(true)` before any name silently sets the name
to "Inbox"; called after `name("Not inbox")` it renames the project to
"Inbox" (with a diagnostic) and commit then succeeds with name "Inbox";
commit fails whenever no name is set, or whenever `inbox_project` is true
while the stored name is not exactly "Inbox" (which arises when the name is
set after the inbox flag). -/
theorem claim_C3_amended_inbox_naming (b : ProjectBuilder) :
    (b.name = none → (b.inbox_project_set true).name = some "Inbox") ∧
    (b.name = some "Not inbox" →
      ∃ p : Project, (b.inbox_project_set true).build = .ok p ∧
        p.name = "Inbox" ∧ p.inbox_project = true) ∧
    (b.name = none → b.build = .error "Project has no name.") ∧
    (∀ n : String, b.name = some n → n ≠ "Inbox" → b.inbox_project = true →
      b.build = .error
        "Project is not named 'Inbox' but is marked as inbox project") := by
  refine ⟨?_, ?_, ?_, ?_⟩
  · intro h
    simp [ProjectBuilder.inbox_project_set, h]
  · intro h
    refine ⟨{ id := b.id, name := "Inbox",
              color := match b.color with
                | some value => value
                | none => Colors.default,
              parent_id := b.parent_id, child_order := b.child_order,
              collapsed := b.collapsed, shared := b.shared,
              sync_id := b.sync_id, is_deleted := b.is_deleted,
              is_archived := b.is_archived, is_favorite := b.is_favorite,
              inbox_project := true }, ?_, rfl, rfl⟩
    simp [ProjectBuilder.inbox_project_set, h, ProjectBuilder.build]
  · intro h
    simp [ProjectBuilder.build, h]
  · intro n hn hne hinbox
    simp [ProjectBuilder.build, hn, hne, hinbox]

/-- C3 amended witness: `claim_C3_amended_inbox_naming` applied at the fresh
builder (no name yet) and at the builder where the name "Not inbox" was set
after the inbox flag. -/
theorem claim_C3_amended_inbox_naming_witness :
    ((ProjectBuilder.mk_default.inbox_project_set true).name = some "Inbox") ∧
    ((ProjectBuilder.mk_default.inbox_project_set true).name_set
        "Not inbox").build =
      .error "Project is not named 'Inbox' but is marked as inbox project" :=
  ⟨(claim_C3_amended_inbox_naming ProjectBuilder.mk_default).1 rfl,
   (claim_C3_amended_inbox_naming _).2.2.2 "Not inbox" rfl (by decide) rfl⟩

/-- C1 counterexample: the claim asserts that committing the unmodified
derived builder reproduces the record "in particular also for an Item record
whose user_id ... equals 0"; on the concrete record `zeroUserItem`
(identifier present, `user_id = 0`) the derivation maps the zero owner id to
"unset" and recommitting fails instead of reproducing the record. -/
theorem claim_C1_counterexample :
    zeroUserItem.to_builder.bind ItemBuilder.build =
      .error "Task has no user ID." ∧
    zeroUserItem.to_builder.bind ItemBuilder.build ≠ .ok zeroUserItem := by
  constructor
  · rfl
  · intro h
    simp [zeroUserItem, Item.to_builder, ItemBuilder.build, bind,
      Except.bind] at h

/-- C1 amended: builder derivation exists for Item, Project, Section and
Label (Filter has none); on a record with identifier absent it always fails
with a message naming the entity type; on a record with identifier present
the unmodified derived builder recommits to a record equal to the original,
provided the record satisfies its own commit invariants (Item:
checked iff completion date present; Project: inbox flag implies name
"Inbox"; Section: archived flag iff archive date present) and, for Item, its
owner and project ids are nonzero (a zero id derives to "unset" and
recommit fails). -/
theorem claim_C1_amended_round_trip :
    (∀ r : Item, r.id = none →
      r.to_builder = .error "Builder from Item with no ID not allowed.") ∧
    (∀ r : Project, r.id = none →
      r.to_builder = .error "Builder from project with no ID not allowed.") ∧
    (∀ r : Section, r.id = none →
      r.to_builder = .error "Builder from section with no ID not allowed.") ∧
    (∀ r : Label, r.id = none →
      r.to_builder = .error "Builder from label with no ID not allowed") ∧
    (∀ r : Item, r.id ≠ none → r.user_id ≠ 0 → r.project_id ≠ 0 →
      r.checked = r.date_completed.isSome →
      r.to_builder.bind ItemBuilder.build = .ok r) ∧
    (∀ r : Project, r.id ≠ none → (r.inbox_project = true → r.name = "Inbox") →
      r.to_builder.bind ProjectBuilder.build = .ok r) ∧
    (∀ r : Section, r.id ≠ none →
      (r.is_archived = true ↔ r.date_archived ≠ none) →
      r.to_builder.bind SectionBuilder.build = .ok r) ∧
    (∀ r : Label, r.id ≠ none →
      r.to_builder.bind LabelBuilder.build = .ok r) := by
  refine ⟨?_, ?_, ?_, ?_, ?_, ?_, ?_, ?_⟩
  · intro r h
    simp [Item.to_builder, h]
  · intro r h
    simp [Project.to_builder, h]
  · intro r h
    simp [Section.to_builder, h]
  · intro r h
    simp [Label.to_builder, h]
  · intro r hid hu hp hc
    obtain ⟨id, uid, pid, content, desc, due, prio, par, co, sec, day, col,
      labels, checked, del, dc, da⟩ := r
    cases id with
    | none => exact absurd rfl hid
    | some i =>
      cases uid with
      | zero => exact absurd rfl hu
      | succ u =>
        cases pid with
        | zero => exact absurd rfl hp
        | succ p =>
          cases dc <;> cases checked <;>
            simp_all [Item.to_builder, ItemBuilder.build, bind, Except.bind]
  · intro r hid hinbox
    obtain ⟨id, name, color, par, co, col, sh, sy, del, arch, fav, inbox⟩ := r
    cases id with
    | none => exact absurd rfl hid
    | some i =>
      cases inbox with
      | false =>
        simp [Project.to_builder, ProjectBuilder.build, bind, Except.bind]
      | true =>
        have hname : name = "Inbox" := hinbox rfl
        subst hname
        simp [Project.to_builder, ProjectBuilder.build, bind, Except.bind]
  · intro r hid hinv
    obtain ⟨id, name, pid, so, col, del, arch, darch, da⟩ := r
    cases id with
    | none => exact absurd rfl hid
    | some i =>
      cases arch <;> cases darch <;>
        simp_all [Section.to_builder, SectionBuilder.build, bind, Except.bind]
  · intro r hid
    obtain ⟨id, name, color, io, del, fav⟩ := r
    cases id with
    | none => exact absurd rfl hid
    | some i =>
      simp [Label.to_builder, LabelBuilder.build, bind, Except.bind]

/-- C1 amended witness: `claim_C1_amended_round_trip` applied at concrete
records: the Section round trip on an archived section with an archive date,
the Item round trip on a completed task with nonzero ids, and the
no-identifier failure on a Project with no ID. -/
theorem claim_C1_amended_round_trip_witness :
    (Item.to_builder
        { id := some 1, user_id := 1, project_id := 1,
          content := "Lorem ipsum", description := none,
          due := DueDate.mk_default, priority := Priority.default,
          parent_id := none, child_order := 0, section_id := none,
          day_order := 0, collapsed := false, labels := [], checked := true,
          is_deleted := false, date_completed := some "2000-01-01",
          date_added := "1999-01-01" }).bind ItemBuilder.build =
      .ok { id := some 1, user_id := 1, project_id := 1,
            content := "Lorem ipsum", description := none,
            due := DueDate.mk_default, priority := Priority.default,
            parent_id := none, child_order := 0, section_id := none,
            day_order := 0, collapsed := false, labels := [], checked := true,
            is_deleted := false, date_completed := some "2000-01-01",
            date_added := "1999-01-01" } ∧
    (Section.to_builder
        { id := some 1, name := "Foo", project_id := 1, section_order := 0,
          collapsed := false, is_deleted := false, is_archived := true,
          date_archived := some "2000-01-01",
          date_added := "1999-01-01" }).bind SectionBuilder.build =
      .ok { id := some 1, name := "Foo", project_id := 1, section_order := 0,
            collapsed := false, is_deleted := false, is_archived := true,
            date_archived := some "2000-01-01",
            date_added := "1999-01-01" } ∧
    (Project.to_builder
        { id := none, name := "Foo", color := Colors.default,
          parent_id := none, child_order := 0, collapsed := false,
          shared := false, sync_id := none, is_deleted := false,
          is_archived := false, is_favorite := false,
          inbox_project := false }) =
      .error "Builder from project with no ID not allowed." :=
  ⟨claim_C1_amended_round_trip.2.2.2.2.1 _ (by decide) (by decide) (by decide)
      rfl,
   claim_C1_amended_round_trip.2.2.2.2.2.2.1 _ (by decide) (by decide),
   claim_C1_amended_round_trip.2.1 _ rfl⟩

/-- C7 witness: the supported-locale and unsupported-locale branches of
`claim_C7_locale_handling` applied at the concrete codes "da" and "zz". -/
theorem claim_C7_locale_handling_witness :
    ((DueDateBuilder.mk_default.no_date_set true).lang_set "da").build =
      .ok { date := "No date", timezone := "null", string := "No date",
            lang := "da", is_recurring := false, no_date := true } ∧
    ((DueDateBuilder.mk_default.no_date_set true).lang_set "zz").build =
      .ok { date := "No date", timezone := "null", string := "No date",
            lang := "en", is_recurring := false, no_date := true } :=
  ⟨claim_C7_locale_handling.1 "da" (by decide),
   claim_C7_locale_handling.2.1 "zz" (by decide)⟩

end Todoist
